import Mathlib

/-!
Shallow embedding of the measurement and scoring core of the NetOptimizer
repository (`src/modules/*.py`), together with theorems settling the
specification claims about it.

Modelling conventions:
* Python floats are modelled as rationals (every latency and rate the
  claims touch is exactly representable and was checked against float
  evaluation).
* Python `round(x, 2)` is modelled as round-half-to-even at two decimals,
  `round(x)` as round-half-to-even to an integer, and `int(x)` as
  truncation toward zero.
* Python dicts with a fixed key set are modelled as structures; a key
  that a code path may leave absent (or `None`) is an `Option` field.
-/

namespace NetOptimizer

/-- Python `int(x)` on a float: truncation toward zero. -/
def pyInt (q : ℚ) : ℤ := if 0 ≤ q then ⌊q⌋ else -⌊-q⌋

/-- Python `round(x)` (no digits argument): round half to even. -/
def pyRound (q : ℚ) : ℤ :=
  if q - ⌊q⌋ < 1/2 then ⌊q⌋
  else if 1/2 < q - ⌊q⌋ then ⌊q⌋ + 1
  else if 2 ∣ ⌊q⌋ then ⌊q⌋ else ⌊q⌋ + 1

/-- Python `round(x, 2)`: round half to even at two decimal places. -/
def round2 (q : ℚ) : ℚ := (pyRound (q * 100) : ℚ) / 100

/-- Evaluation lemma: `round2 q = n / 100` when `q * 100` lies in the
half-open band `[n, n + 1/2)`. -/
lemma round2_eval_lo (q : ℚ) (n : ℤ) (h1 : (n : ℚ) ≤ q * 100)
    (h2 : q * 100 < (n : ℚ) + 1/2) : round2 q = (n : ℚ) / 100 := by
  have hfl : ⌊q * 100⌋ = n := by
    rw [Int.floor_eq_iff]
    exact ⟨h1, by linarith⟩
  unfold round2 pyRound
  rw [hfl, if_pos (by linarith)]

/-- Evaluation lemma: `round2 q = (n + 1) / 100` when `q * 100` lies in
the open band `(n + 1/2, n + 1)`. -/
lemma round2_eval_hi (q : ℚ) (n : ℤ) (h1 : (n : ℚ) + 1/2 < q * 100)
    (h2 : q * 100 < (n : ℚ) + 1) : round2 q = ((n : ℚ) + 1) / 100 := by
  have hfl : ⌊q * 100⌋ = n := by
    rw [Int.floor_eq_iff]
    exact ⟨by linarith, by linarith⟩
  unfold round2 pyRound
  rw [hfl, if_neg (by linarith), if_pos (by linarith)]
  push_cast
  ring

/-- Rounding at two decimals fixes integers. -/
lemma round2_intCast (n : ℤ) : round2 (n : ℚ) = (n : ℚ) := by
  have := round2_eval_lo (n : ℚ) (100 * n) (by push_cast; linarith) (by push_cast; linarith)
  rw [this]
  push_cast
  ring

/-- Evaluation lemma for `pyInt` on non-negative rationals. -/
lemma pyInt_eval (q : ℚ) (n : ℤ) (h0 : 0 ≤ q) (h1 : (n : ℚ) ≤ q)
    (h2 : q < (n : ℚ) + 1) : pyInt q = n := by
  unfold pyInt
  rw [if_pos h0, Int.floor_eq_iff]
  exact ⟨h1, by linarith⟩

/-- Minimum of a list of rationals; on a nonempty list this equals the
source's fold of `min` started at `float("inf")`, and Python's built-in
`min`. -/
def listMin : List ℚ → ℚ
  | [] => 0
  | t :: ts => ts.foldl min t

/-- Python's built-in `max` over a nonempty list (0 on the empty list,
which the sources never hit). -/
def listMax : List ℚ → ℚ
  | [] => 0
  | t :: ts => ts.foldl max t

/-- The fold of `max` started at 0 used for `max_time` by
`DNSAnalyzer.benchmark` and `CDNTester.benchmark` (their `max_time`
accumulator starts at 0, not at the first sample). -/
def listMax0 (l : List ℚ) : ℚ := l.foldl max 0

namespace DNSAnalyzer

/-- The latency step function inlined in `DNSAnalyzer._calculate_reliability`
(`src/modules/dns_analyzer.py` lines 195-206). -/
def time_score (avg_time : ℚ) : ℚ :=
  if avg_time ≤ 10 then 100
  else if avg_time ≤ 25 then 90
  else if avg_time ≤ 50 then 75
  else if avg_time ≤ 100 then 60
  else if avg_time ≤ 200 then 40
  else 20

/-- Embeds `DNSAnalyzer._calculate_reliability` (`src/modules/dns_analyzer.py`
lines 191-208): 0 on zero success rate, otherwise
`int(success_rate * 0.6 + time_score * 0.4)`. -/
def calculate_reliability (avg_time success_rate : ℚ) : ℤ :=
  if success_rate = 0 then 0
  else pyInt (success_rate * (6/10) + time_score avg_time * (4/10))

/-- One probe outcome as consumed by `DNSAnalyzer.benchmark`: the
`success` and `response_time_ms` fields of a `test_dns_server` result. -/
structure Probe where
  success : Bool
  response_time_ms : ℚ
deriving DecidableEq

/-- The timed-out result of `DNSAnalyzer.test_dns_server`
(`src/modules/dns_analyzer.py` lines 62-63): failure with the sentinel
elapsed value `timeout * 1000` milliseconds. -/
def timeoutProbe (timeout : ℚ) : Probe := ⟨false, timeout * 1000⟩

/-- The numeric fields of one per-server entry built by
`DNSAnalyzer.benchmark`. -/
structure Stats where
  avg_response_time : ℚ
  success_rate : ℚ
  min_time : ℚ
  max_time : ℚ
  reliability_score : ℤ
deriving DecidableEq

/-- The per-server aggregation loop of `DNSAnalyzer.benchmark`
(`src/modules/dns_analyzer.py` lines 133-171): `samples` lists the probe
results in domain-by-iteration order and
`total_tests = len(domains) * iterations`.  `min_time` starts at
`float("inf")` and is set to 0 when no sample succeeded; `max_time`
starts at (and, with no success, stays) 0. -/
def benchmarkStats (samples : List Probe) (total_tests : ℕ) : Stats :=
  let all_times := (samples.filter (·.success)).map (·.response_time_ms)
  let success_rate :=
    round2 (((samples.filter (·.success)).length : ℚ) / (total_tests : ℚ) * 100)
  let avg := if all_times = [] then 0 else round2 (all_times.sum / (all_times.length : ℚ))
  { avg_response_time := avg
    success_rate := success_rate
    min_time := if all_times = [] then 0 else round2 (listMin all_times)
    max_time := if all_times = [] then 0 else round2 (listMax0 all_times)
    reliability_score := calculate_reliability avg success_rate }

end DNSAnalyzer

namespace GlobalPingTester

/-- One `ping_host` outcome as consumed by `GlobalPingTester.test_region`:
the `success` and `latency_ms` fields. -/
structure Probe where
  success : Bool
  latency_ms : ℚ
deriving DecidableEq

/-- The timed-out result of `GlobalPingTester.ping_host`
(`src/modules/global_ping.py` lines 170-176): failure with the sentinel
latency `timeout * 1000`. -/
def timeoutProbe (timeout : ℚ) : Probe := ⟨false, timeout * 1000⟩

/-- The aggregate fields of a `GlobalPingTester.test_region` result. -/
structure RegionStats where
  success : Bool
  avg_latency_ms : ℚ
  min_latency_ms : ℚ
  max_latency_ms : ℚ
  jitter_ms : ℚ
  success_rate : ℚ
deriving DecidableEq

/-- The aggregation part of `GlobalPingTester.test_region`
(`src/modules/global_ping.py` lines 199-230): jitter is the rounded
difference of the already-rounded max and min latency. -/
def test_region_stats (samples : List Probe) (iterations : ℕ) : RegionStats :=
  let latencies := (samples.filter (·.success)).map (·.latency_ms)
  let minL := if latencies = [] then 0 else round2 (listMin latencies)
  let maxL := if latencies = [] then 0 else round2 (listMax latencies)
  { success := decide (0 < latencies.length)
    avg_latency_ms := if latencies = [] then 0 else round2 (latencies.sum / (latencies.length : ℚ))
    min_latency_ms := minL
    max_latency_ms := maxL
    jitter_ms := if latencies = [] then 0 else round2 (maxL - minL)
    success_rate := round2 ((latencies.length : ℚ) / (iterations : ℚ) * 100) }

end GlobalPingTester

namespace NetworkScanner

/-- One iteration of `NetworkScanner.measure_latency`
(`src/modules/network_scanner.py` lines 172-188): a successful connect
appends the latency, a timeout appends `float("inf")` (filtered out
before aggregation), and any other failure appends nothing
(`continue`). -/
inductive PingOutcome where
  | ok (latency : ℚ)
  | timedOut
  | failed
deriving DecidableEq

/-- The result record of `NetworkScanner.measure_latency`. -/
structure LatencyStats where
  min : ℚ
  max : ℚ
  avg : ℚ
  jitter : ℚ
  packet_loss : ℚ
deriving DecidableEq

/-- Absolute differences of temporally adjacent entries
(`abs(valid_latencies[i] - valid_latencies[i - 1])`,
`src/modules/network_scanner.py` lines 200-203). -/
def adjacentDiffs : List ℚ → List ℚ
  | x :: y :: rest => |y - x| :: adjacentDiffs (y :: rest)
  | _ => []

/-- Embeds `NetworkScanner.measure_latency` (`src/modules/network_scanner.py`
lines 169-216): `outcomes` lists the `count` iteration outcomes in
temporal order. -/
def measure_latency (outcomes : List PingOutcome) (count : ℕ) : LatencyStats :=
  let valid := outcomes.filterMap fun o =>
    match o with
    | .ok l => some l
    | _ => none
  if valid = [] then ⟨0, 0, 0, 0, 100⟩
  else
    { min := round2 (listMin valid)
      max := round2 (listMax valid)
      avg := round2 (valid.sum / (valid.length : ℚ))
      jitter := round2 (if 1 < valid.length then
          (adjacentDiffs valid).sum / ((adjacentDiffs valid).length : ℚ) else 0)
      packet_loss := round2 (((count : ℚ) - (valid.length : ℚ)) / (count : ℚ) * 100) }

end NetworkScanner

namespace CDNTester

/-- The latency step function inlined in `CDNTester._calculate_score`
(`src/modules/cdn_tester.py` lines 205-216). -/
def time_score (avg_time : ℚ) : ℚ :=
  if avg_time ≤ 50 then 100
  else if avg_time ≤ 100 then 90
  else if avg_time ≤ 200 then 75
  else if avg_time ≤ 500 then 50
  else if avg_time ≤ 1000 then 30
  else 10

/-- Embeds `CDNTester._calculate_score` (`src/modules/cdn_tester.py` lines
200-218): 0 on zero success rate, otherwise
`int(success_rate * 0.6 + time_score * 0.4)`. -/
def calculate_score (avg_time success_rate : ℚ) : ℤ :=
  if success_rate = 0 then 0
  else pyInt (success_rate * (6/10) + time_score avg_time * (4/10))

/-- One `test_cdn` outcome as consumed by `CDNTester.benchmark`: the
`success`, `status_code` and `response_time_ms` fields. -/
structure Probe where
  success : Bool
  status_code : ℕ
  response_time_ms : ℚ
deriving DecidableEq

/-- The timed-out result of `CDNTester.test_cdn` (`src/modules/cdn_tester.py`
lines 117-126): failure, status code 0, sentinel `timeout * 1000`. -/
def timeoutProbe (timeout : ℚ) : Probe := ⟨false, 0, timeout * 1000⟩

/-- The numeric fields of one per-provider entry built by
`CDNTester.benchmark`. -/
structure Stats where
  avg_response_time : ℚ
  min_time : ℚ
  max_time : ℚ
  success_rate : ℚ
  score : ℤ
deriving DecidableEq

/-- The per-provider aggregation loop of `CDNTester.benchmark`
(`src/modules/cdn_tester.py` lines 142-183): an iteration is counted as
successful, and its time enters the latency aggregates, only when
`result["success"] and result["status_code"] < 400`. -/
def benchmarkStats (samples : List Probe) (iterations : ℕ) : Stats :=
  let counted := samples.filter fun r => r.success && decide (r.status_code < 400)
  let all_times := counted.map (·.response_time_ms)
  let success_rate := round2 ((counted.length : ℚ) / (iterations : ℚ) * 100)
  let avg := if all_times = [] then 0 else round2 (all_times.sum / (all_times.length : ℚ))
  { avg_response_time := avg
    min_time := if all_times = [] then 0 else round2 (listMin all_times)
    max_time := if all_times = [] then 0 else round2 (listMax0 all_times)
    success_rate := success_rate
    score := calculate_score avg success_rate }

/-- The keys of the per-provider result dict built by `CDNTester.benchmark`
(`src/modules/cdn_tester.py` lines 143-153); no key is added later, so in
particular the CDN runner reports no jitter. -/
def resultKeys : List String :=
  ["url", "description", "features", "tests", "avg_response_time",
   "min_time", "max_time", "success_rate", "score"]

end CDNTester

lemma dns_time_score_lb (avg : ℚ) : 20 ≤ DNSAnalyzer.time_score avg := by
  unfold DNSAnalyzer.time_score
  split_ifs <;> norm_num

lemma cdn_time_score_lb (avg : ℚ) : 10 ≤ CDNTester.time_score avg := by
  unfold CDNTester.time_score
  split_ifs <;> norm_num

lemma pyInt_pos_of_le {q : ℚ} (h : 4 ≤ q) : 0 < pyInt q := by
  unfold pyInt
  rw [if_pos (by linarith)]
  have : (4 : ℤ) ≤ ⌊q⌋ := by
    rw [Int.le_floor]
    exact_mod_cast h
  omega

/-- C1: for both the DNS reliability scorer and the CDN scorer, on any
scoring input with a non-negative success rate, `success_rate == 0` holds
iff the score is 0, and a strictly positive success rate yields a strictly
positive score (the time score never drops below its lowest band, 20 for
DNS and 10 for CDN). -/
theorem claim_c1_score_zero_iff (avg sr : ℚ) (h : 0 ≤ sr) :
    ((sr = 0 ↔ DNSAnalyzer.calculate_reliability avg sr = 0) ∧
      (0 < sr → 0 < DNSAnalyzer.calculate_reliability avg sr) ∧
      20 ≤ DNSAnalyzer.time_score avg) ∧
    ((sr = 0 ↔ CDNTester.calculate_score avg sr = 0) ∧
      (0 < sr → 0 < CDNTester.calculate_score avg sr) ∧
      10 ≤ CDNTester.time_score avg) := by
  have hdnsPos : 0 < sr → 0 < DNSAnalyzer.calculate_reliability avg sr := by
    intro hpos
    unfold DNSAnalyzer.calculate_reliability
    rw [if_neg (by linarith)]
    have hts := dns_time_score_lb avg
    exact pyInt_pos_of_le (by nlinarith)
  have hcdnPos : 0 < sr → 0 < CDNTester.calculate_score avg sr := by
    intro hpos
    unfold CDNTester.calculate_score
    rw [if_neg (by linarith)]
    have hts := cdn_time_score_lb avg
    exact pyInt_pos_of_le (by nlinarith)
  refine ⟨⟨⟨fun hz => ?_, fun hz => ?_⟩, hdnsPos, dns_time_score_lb avg⟩,
    ⟨⟨fun hz => ?_, fun hz => ?_⟩, hcdnPos, cdn_time_score_lb avg⟩⟩
  · simp [DNSAnalyzer.calculate_reliability, hz]
  · by_contra hne
    have hpos : 0 < sr := lt_of_le_of_ne h (Ne.symm hne)
    exact absurd hz (by have := hdnsPos hpos; omega)
  · simp [CDNTester.calculate_score, hz]
  · by_contra hne
    have hpos : 0 < sr := lt_of_le_of_ne h (Ne.symm hne)
    exact absurd hz (by have := hcdnPos hpos; omega)

/-- Witness for C1 at avg = 20, success rate = 50. -/
theorem claim_c1_score_zero_iff_witness :
    (0 : ℚ) ≤ 50 ∧ 0 < DNSAnalyzer.calculate_reliability 20 50 :=
  ⟨by norm_num, (claim_c1_score_zero_iff 20 50 (by norm_num)).1.2.1 (by norm_num)⟩

/-- C2 counterexample: at avg latency 20 and success rate 33.33 (the rate a
single success out of three samples produces) the DNS scorer returns 55,
while `round(33.33 * 0.6 + 90 * 0.4) = round(55.998) = 56` — the code
truncates with `int(...)`, it does not round. -/
theorem claim_c2_counterexample :
    DNSAnalyzer.calculate_reliability 20 (3333/100) = 55 ∧
      pyRound ((3333/100) * (6/10) + DNSAnalyzer.time_score 20 * (4/10)) = 56 := by
  have hts : DNSAnalyzer.time_score 20 = 90 := by
    unfold DNSAnalyzer.time_score
    norm_num
  have harg : (3333/100 : ℚ) * (6/10) + DNSAnalyzer.time_score 20 * (4/10) = 55998/1000 := by
    rw [hts]; norm_num
  have hfloor : ⌊(55998/1000 : ℚ)⌋ = 55 := by
    rw [Int.floor_eq_iff]
    norm_num
  constructor
  · unfold DNSAnalyzer.calculate_reliability pyInt
    rw [if_neg (by norm_num), harg, if_pos (by norm_num), hfloor]
  · unfold pyRound
    rw [harg, hfloor]
    norm_num

/-- C2 (amended): with a positive success rate the DNS and CDN scorers
return exactly `int(success_rate * 0.6 + time_score * 0.4)` — truncation,
not `round` — where each domain's time score is a monotonically
non-increasing step function of average latency whose top band is 100 for
DNS latency ≤ 10 ms and for CDN latency ≤ 50 ms. -/
theorem claim_c2_amended (avg avg2 sr : ℚ) (h : 0 < sr) :
    (DNSAnalyzer.calculate_reliability avg sr =
        pyInt (sr * (6/10) + DNSAnalyzer.time_score avg * (4/10))) ∧
    (CDNTester.calculate_score avg sr =
        pyInt (sr * (6/10) + CDNTester.time_score avg * (4/10))) ∧
    (avg ≤ avg2 → DNSAnalyzer.time_score avg2 ≤ DNSAnalyzer.time_score avg) ∧
    (avg ≤ avg2 → CDNTester.time_score avg2 ≤ CDNTester.time_score avg) ∧
    (avg ≤ 10 → DNSAnalyzer.time_score avg = 100) ∧
    (avg ≤ 50 → CDNTester.time_score avg = 100) := by
  refine ⟨?_, ?_, ?_, ?_, ?_, ?_⟩
  · unfold DNSAnalyzer.calculate_reliability
    rw [if_neg (by linarith)]
  · unfold CDNTester.calculate_score
    rw [if_neg (by linarith)]
  · intro hle
    unfold DNSAnalyzer.time_score
    split_ifs <;> linarith
  · intro hle
    unfold CDNTester.time_score
    split_ifs <;> linarith
  · intro hle
    unfold DNSAnalyzer.time_score
    rw [if_pos hle]
  · intro hle
    unfold CDNTester.time_score
    rw [if_pos hle]

/-- Witness for C2 (amended) at avg = 20, avg2 = 30, success rate 100. -/
theorem claim_c2_amended_witness :
    (0 : ℚ) < 100 ∧
      DNSAnalyzer.calculate_reliability 20 100 =
        pyInt (100 * (6/10) + DNSAnalyzer.time_score 20 * (4/10)) :=
  ⟨by norm_num, (claim_c2_amended 20 30 100 (by norm_num)).1⟩

/-- C3: a DNS benchmark over 1 test domain, 1 resolver and 3 iterations
whose three probes succeed at 10 ms, 20 ms and 30 ms aggregates to
avg_response_time 20, success_rate 100, min_time 10, max_time 30 and
reliability score 96. -/
theorem claim_c3_dns_scenario :
    DNSAnalyzer.benchmarkStats [⟨true, 10⟩, ⟨true, 20⟩, ⟨true, 30⟩] 3 =
      ⟨20, 100, 10, 30, 96⟩ := by
  have e10 : round2 (10 : ℚ) = 10 := by
    have := round2_eval_lo (10 : ℚ) 1000 (by norm_num) (by norm_num)
    rw [this]; norm_num
  have e20 : round2 (20 : ℚ) = 20 := by
    have := round2_eval_lo (20 : ℚ) 2000 (by norm_num) (by norm_num)
    rw [this]; norm_num
  have e30 : round2 (30 : ℚ) = 30 := by
    have := round2_eval_lo (30 : ℚ) 3000 (by norm_num) (by norm_num)
    rw [this]; norm_num
  have e100 : round2 (100 : ℚ) = 100 := by
    have := round2_eval_lo (100 : ℚ) 10000 (by norm_num) (by norm_num)
    rw [this]; norm_num
  have escore : DNSAnalyzer.calculate_reliability 20 100 = 96 := by
    unfold DNSAnalyzer.calculate_reliability DNSAnalyzer.time_score
    rw [if_neg (by norm_num), if_neg (by norm_num), if_pos (by norm_num)]
    exact pyInt_eval _ 96 (by norm_num) (by norm_num) (by norm_num)
  norm_num [DNSAnalyzer.benchmarkStats, listMin, listMax0, List.filter,
    DNSAnalyzer.Stats.mk.injEq, min_def, max_def, e10, e20, e30, e100, escore]
  refine ⟨by simp, ?_⟩
  rw [if_neg (by simp)]
  exact escore

/-- C4: when every probe sample of a runner invocation fails, the DNS
benchmark aggregate and the region-ping aggregate have success_rate 0,
avg = min = max = 0, jitter 0 (where reported) and derived score 0, for
every configured timeout — even though each timed-out sample itself
carries the sentinel elapsed value `timeout * 1000` ms. -/
theorem claim_c4_all_failed (dsamples : List DNSAnalyzer.Probe) (n : ℕ)
    (psamples : List GlobalPingTester.Probe) (iters : ℕ)
    (csamples : List CDNTester.Probe) (m : ℕ) (t u v : ℚ)
    (hd : ∀ s ∈ dsamples, s.success = false)
    (hp : ∀ s ∈ psamples, s.success = false)
    (hc : ∀ s ∈ csamples, s.success = false) :
    DNSAnalyzer.benchmarkStats dsamples n = ⟨0, 0, 0, 0, 0⟩ ∧
    GlobalPingTester.test_region_stats psamples iters = ⟨false, 0, 0, 0, 0, 0⟩ ∧
    CDNTester.benchmarkStats csamples m = ⟨0, 0, 0, 0, 0⟩ ∧
    DNSAnalyzer.timeoutProbe t = ⟨false, t * 1000⟩ ∧
    GlobalPingTester.timeoutProbe u = ⟨false, u * 1000⟩ ∧
    CDNTester.timeoutProbe v = ⟨false, 0, v * 1000⟩ := by
  have hz : round2 (0 : ℚ) = 0 := by
    have := round2_intCast 0
    simpa using this
  have hdf : dsamples.filter (·.success) = [] := by
    rw [List.filter_eq_nil_iff]
    intro a ha
    simp [hd a ha]
  have hpf : psamples.filter (·.success) = [] := by
    rw [List.filter_eq_nil_iff]
    intro a ha
    simp [hp a ha]
  have hcf : csamples.filter (fun r => r.success && decide (r.status_code < 400)) = [] := by
    rw [List.filter_eq_nil_iff]
    intro a ha
    simp [hc a ha]
  refine ⟨?_, ?_, ?_, rfl, rfl, rfl⟩
  · unfold DNSAnalyzer.benchmarkStats
    rw [hdf]
    simp [DNSAnalyzer.Stats.mk.injEq, DNSAnalyzer.calculate_reliability, hz]
  · unfold GlobalPingTester.test_region_stats
    rw [hpf]
    simp [GlobalPingTester.RegionStats.mk.injEq, hz]
  · unfold CDNTester.benchmarkStats
    rw [hcf]
    simp [CDNTester.Stats.mk.injEq, CDNTester.calculate_score, hz]

/-- Witness for C4: singleton all-timed-out sample lists with timeouts 5,
7 and 10 seconds. -/
theorem claim_c4_all_failed_witness :
    DNSAnalyzer.benchmarkStats [DNSAnalyzer.timeoutProbe 5] 1 = ⟨0, 0, 0, 0, 0⟩ ∧
    GlobalPingTester.test_region_stats [GlobalPingTester.timeoutProbe 7] 1 =
      ⟨false, 0, 0, 0, 0, 0⟩ ∧
    CDNTester.benchmarkStats [CDNTester.timeoutProbe 10] 1 = ⟨0, 0, 0, 0, 0⟩ := by
  have h := claim_c4_all_failed [DNSAnalyzer.timeoutProbe 5] 1
    [GlobalPingTester.timeoutProbe 7] 1 [CDNTester.timeoutProbe 10] 1 5 7 10
    (by intro s hs; rw [List.mem_singleton] at hs; rw [hs]; rfl)
    (by intro s hs; rw [List.mem_singleton] at hs; rw [hs]; rfl)
    (by intro s hs; rw [List.mem_singleton] at hs; rw [hs]; rfl)
  exact ⟨h.1, h.2.1, h.2.2.1⟩

namespace PortScanner

/-- An entry of the port catalogs: service name, category and (for VPN
ports) protocol. -/
structure PortInfo where
  service : String
  category : String
  protocol : Option String := none
deriving DecidableEq

/-- Embeds `COMMON_PORTS` (`src/modules/port_scanner.py` lines 16-41). -/
def COMMON_PORTS : List (ℕ × PortInfo) :=
  [(20, ⟨"FTP Data", "file_transfer", none⟩),
   (21, ⟨"FTP Control", "file_transfer", none⟩),
   (22, ⟨"SSH", "remote_access", none⟩),
   (23, ⟨"Telnet", "remote_access", none⟩),
   (25, ⟨"SMTP", "email", none⟩),
   (53, ⟨"DNS", "network", none⟩),
   (80, ⟨"HTTP", "web", none⟩),
   (110, ⟨"POP3", "email", none⟩),
   (143, ⟨"IMAP", "email", none⟩),
   (443, ⟨"HTTPS", "web", none⟩),
   (445, ⟨"SMB", "file_transfer", none⟩),
   (465, ⟨"SMTPS", "email", none⟩),
   (587, ⟨"SMTP Submission", "email", none⟩),
   (993, ⟨"IMAPS", "email", none⟩),
   (995, ⟨"POP3S", "email", none⟩),
   (1433, ⟨"MSSQL", "database", none⟩),
   (3306, ⟨"MySQL", "database", none⟩),
   (3389, ⟨"RDP", "remote_access", none⟩),
   (5432, ⟨"PostgreSQL", "database", none⟩),
   (5900, ⟨"VNC", "remote_access", none⟩),
   (6379, ⟨"Redis", "database", none⟩),
   (8080, ⟨"HTTP Proxy", "web", none⟩),
   (8443, ⟨"HTTPS Alt", "web", none⟩),
   (27017, ⟨"MongoDB", "database", none⟩)]

/-- Embeds `VPN_PORTS` (`src/modules/port_scanner.py` lines 43-56). -/
def VPN_PORTS : List (ℕ × PortInfo) :=
  [(500, ⟨"IKE", "vpn", some "IPSec"⟩),
   (1194, ⟨"OpenVPN", "vpn", some "OpenVPN"⟩),
   (1701, ⟨"L2TP", "vpn", some "L2TP"⟩),
   (1723, ⟨"PPTP", "vpn", some "PPTP"⟩),
   (4500, ⟨"IPSec NAT-T", "vpn", some "IPSec"⟩),
   (51820, ⟨"WireGuard", "vpn", some "WireGuard"⟩),
   (443, ⟨"HTTPS/SSL VPN", "vpn", some "SSL VPN"⟩),
   (8443, ⟨"AnyConnect", "vpn", some "Cisco AnyConnect"⟩),
   (10443, ⟨"V2Ray", "vpn", some "V2Ray"⟩),
   (2083, ⟨"V2Ray/Xray", "vpn", some "V2Ray"⟩),
   (2087, ⟨"Trojan", "vpn", some "Trojan"⟩),
   (8388, ⟨"Shadowsocks", "vpn", some "Shadowsocks"⟩)]

/-- Embeds `self.all_ports = {**COMMON_PORTS, **VPN_PORTS}` followed by
`.get(port, {})`: a VPN entry overrides a common entry on the ports
present in both tables (443 and 8443). -/
def all_ports_get (port : ℕ) : Option PortInfo :=
  match VPN_PORTS.find? (fun e => e.1 == port) with
  | some e => some e.2
  | none => (COMMON_PORTS.find? (fun e => e.1 == port)).map (·.2)

/-- The four ways the connection attempt of `PortScanner.scan_port` can
end: established, `asyncio.TimeoutError`, `ConnectionRefusedError`, or
any other exception. -/
inductive ConnectOutcome where
  | established
  | refused
  | timedOut
  | failed (msg : String)
deriving DecidableEq

/-- The result dict of `PortScanner.scan_port` (lines 75-120).  In the
non-open branches the Python dict carries no `protocol` key at all; that
and a `None` value are both modelled as `none`. -/
structure PortResult where
  port : ℕ
  status : String
  service : Option String
  category : Option String
  protocol : Option String
  error : Option String
deriving DecidableEq

/-- Embeds `PortScanner.scan_port` (`src/modules/port_scanner.py` lines 75-120):
established ↦ open, refused ↦ closed, timed out ↦ filtered, other
failure ↦ error. -/
def scan_port (port : ℕ) (outcome : ConnectOutcome) : PortResult :=
  match outcome with
  | .established =>
      let info := all_ports_get port
      { port := port
        status := "open"
        service := some (match info with | some i => i.service | none => "Unknown")
        category := some (match info with | some i => i.category | none => "unknown")
        protocol := info.bind (·.protocol)
        error := none }
  | .timedOut => ⟨port, "filtered", none, none, none, some "Timeout"⟩
  | .refused => ⟨port, "closed", none, none, none, some "Connection refused"⟩
  | .failed msg => ⟨port, "error", none, none, none, some msg⟩

/-- The summary block of `PortScanner.scan_ports` (lines 164-170).  The
Python dict key `open` is a reserved word in Lean and is rendered
`open_count`. -/
structure ScanSummary where
  total_scanned : ℕ
  open_count : ℕ
  closed : ℕ
  filtered : ℕ
  open_percentage : ℚ
deriving DecidableEq

/-- The result dict of `PortScanner.scan_ports`. -/
structure ScanResults where
  host : String
  ports_scanned : ℕ
  open_ports : List PortResult
  closed_ports : List PortResult
  filtered_ports : List PortResult
  results : List PortResult
  summary : ScanSummary
deriving DecidableEq

/-- Embeds `PortScanner.scan_ports` (`src/modules/port_scanner.py` lines
122-172) on caller-supplied ports: `probes` pairs each target port with
its connection outcome, in scan order. -/
def scan_ports (host : String) (probes : List (ℕ × ConnectOutcome)) : ScanResults :=
  let scan_results := probes.map fun pr => scan_port pr.1 pr.2
  let opens := scan_results.filter fun r => r.status == "open"
  let closeds := scan_results.filter fun r => r.status == "closed"
  let filtereds := scan_results.filter fun r => r.status == "filtered"
  { host := host
    ports_scanned := probes.length
    open_ports := opens
    closed_ports := closeds
    filtered_ports := filtereds
    results := scan_results
    summary :=
      { total_scanned := probes.length
        open_count := opens.length
        closed := closeds.length
        filtered := filtereds.length
        open_percentage := round2 ((opens.length : ℚ) / (probes.length : ℚ) * 100) } }

end PortScanner

namespace RecommendationEngine

/-- The `Recommendation` dataclass
(`src/modules/recommendation_engine.py` lines 15-23).  Numeric values
interpolated into text are rendered with `toString`. -/
structure Recommendation where
  category : String
  priority : String
  title : String
  description : String
  action : String
  impact : String
deriving DecidableEq

/-- The two values `_analyze_network` reads: `data.get("latency_ms", 0)`
and `data.get("mtu", 1500)` (an absent key is modelled as the default). -/
structure NetworkData where
  latency_ms : ℚ
  mtu : ℤ
deriving DecidableEq

/-- Embeds `RecommendationEngine._analyze_network` (lines 90-122). -/
def analyze_network (d : NetworkData) : List Recommendation :=
  (if 100 < d.latency_ms then
    [⟨"network", "high", "High Network Latency",
      "Your network latency is " ++ toString d.latency_ms ++ "ms which may impact performance.",
      "Consider switching to a closer server or using a VPN with better routing.",
      "Reduce latency by up to 50%"⟩]
   else if 50 < d.latency_ms then
    [⟨"network", "medium", "Moderate Network Latency",
      "Your network latency is " ++ toString d.latency_ms ++ "ms which is acceptable but could be improved.",
      "Consider using a CDN or optimizing your connection.",
      "Improve response times by 10-30%"⟩]
   else []) ++
  (if d.mtu < 1400 then
    [⟨"network", "medium", "Low MTU Detected",
      "Your MTU is " ++ toString d.mtu ++ " which may cause fragmentation.",
      "Consider adjusting MTU settings or using a VPN that handles fragmentation.",
      "Reduce packet overhead and improve throughput"⟩]
   else [])

/-- What `_analyze_dns` reads from `data["best_server"]`. -/
structure BestServer where
  name : Option String
  avg_response_time : ℚ
deriving DecidableEq

/-- One entry of `data.get("servers", {})` as read by `_analyze_dns`. -/
structure DNSServerEntry where
  name : String
  privacy : Option String
  ip : Option String
deriving DecidableEq

/-- The input of `_analyze_dns`: `best_server = none` models an absent
or falsy `best_server` key; `servers` lists the entries in dict
iteration order. -/
structure DNSData where
  best_server : Option BestServer
  servers : List DNSServerEntry
deriving DecidableEq

/-- Embeds `RecommendationEngine._analyze_dns` (lines 124-152): a slow-best-
server rule, then the first high-privacy server only (the loop breaks
after the first match). -/
def analyze_dns (d : DNSData) : List Recommendation :=
  (match d.best_server with
   | some best =>
     if 50 < best.avg_response_time then
       [⟨"dns", "high", "Slow DNS Resolution",
         "DNS resolution time is " ++ toString best.avg_response_time ++ "ms which is slow.",
         "Switch to " ++ best.name.getD "a faster DNS" ++ " for better performance.",
         "Reduce page load times significantly"⟩]
     else []
   | none => []) ++
  (match d.servers.find? (fun s => s.privacy == some "high") with
   | some s =>
     [⟨"privacy", "low", "Consider " ++ s.name ++ " for Privacy",
       s.name ++ " offers high privacy protection.",
       "Use " ++ s.ip.getD s.name ++ " as your DNS server.",
       "Improve privacy and reduce tracking"⟩]
   | none => [])

/-- What `_analyze_cdn` reads from `data["best_cdn"]`. -/
structure BestCDN where
  name : Option String
  avg_response_time : ℚ
deriving DecidableEq

/-- The input of `_analyze_cdn`: `best_cdn = none` models an absent or
falsy `best_cdn` key. -/
structure CDNData where
  best_cdn : Option BestCDN
deriving DecidableEq

/-- Embeds `RecommendationEngine._analyze_cdn` (lines 154-177): always emits
exactly one recommendation when a best CDN is present. -/
def analyze_cdn (d : CDNData) : List Recommendation :=
  match d.best_cdn with
  | some best =>
    if best.avg_response_time < 100 then
      [⟨"cdn", "low", "Optimal CDN Performance",
        best.name.getD "CDN" ++ " is performing excellently at " ++
          toString best.avg_response_time ++ "ms.",
        "Continue using current CDN configuration.",
        "Already optimized"⟩]
    else
      [⟨"cdn", "medium", "CDN Optimization Possible",
        "CDN response time is " ++ toString best.avg_response_time ++ "ms.",
        "Consider using " ++ best.name.getD "a different CDN" ++ ".",
        "Improve content delivery by 20-40%"⟩]
  | none => []

/-- The two values `_analyze_protocol` reads through its `.get` chains:
`summary.get("tls_1_3", {}).get("success_rate", 0)` and
`summary.get("https", {}).get("avg_time_ms", 0)`. -/
structure ProtocolData where
  tls13_success_rate : ℚ
  https_avg_time_ms : ℚ
deriving DecidableEq

/-- Embeds `RecommendationEngine._analyze_protocol` (lines 179-203). -/
def analyze_protocol (d : ProtocolData) : List Recommendation :=
  (if d.tls13_success_rate < 50 then
    [⟨"security", "high", "TLS 1.3 Not Available",
      "TLS 1.3 is not consistently available on tested endpoints.",
      "Ensure your servers support TLS 1.3 for better security and performance.",
      "Improve security and reduce handshake latency"⟩]
   else []) ++
  (if 500 < d.https_avg_time_ms then
    [⟨"performance", "medium", "Slow HTTPS Connections",
      "HTTPS connections averaging " ++ toString d.https_avg_time_ms ++ "ms.",
      "Consider using HTTP/2 or optimizing TLS settings.",
      "Reduce connection overhead by 30%"⟩]
   else [])

/-- The input of `_analyze_ports`: `data.get("open_ports", [])`. -/
structure PortData where
  open_ports : List PortScanner.PortResult
deriving DecidableEq

/-- Embeds `RecommendationEngine._analyze_ports` (lines 205-229): a high
security rule when a port of the risky set `[23, 21, 3389]` is open, and
a low vpn rule when an open port has category `vpn`. -/
def analyze_ports (d : PortData) : List Recommendation :=
  let risky := d.open_ports.filter fun p =>
    p.port == 23 || p.port == 21 || p.port == 3389
  let vpn := d.open_ports.filter fun p => p.category == some "vpn"
  (if risky = [] then [] else
    [⟨"security", "high", "Potentially Risky Ports Open",
      "Found " ++ toString risky.length ++ " potentially risky ports open.",
      "Review and close unnecessary ports, or restrict access via firewall.",
      "Improve security posture significantly"⟩]) ++
  (if vpn = [] then [] else
    [⟨"vpn", "low", "VPN Ports Available",
      toString vpn.length ++ " VPN-related ports are open.",
      "Consider using these for secure connections.",
      "Enable VPN connectivity"⟩])

/-- What `_analyze_ping` reads from `data["fastest_region"]`. -/
structure FastestRegion where
  name : Option String
  location : Option String
  avg_latency_ms : ℚ
deriving DecidableEq

/-- The input of `_analyze_ping`: `fastest_region = none` models an
absent or falsy `fastest_region` key. -/
structure PingData where
  fastest_region : Option FastestRegion
deriving DecidableEq

/-- Embeds `RecommendationEngine._analyze_ping` (lines 231-244): one medium
deployment recommendation whenever a fastest region is present. -/
def analyze_ping (d : PingData) : List Recommendation :=
  match d.fastest_region with
  | some fastest =>
    [⟨"deployment", "medium", "Optimal Region: " ++ fastest.name.getD "Unknown",
      "Lowest latency region at " ++ toString fastest.avg_latency_ms ++ "ms.",
      "Consider deploying to " ++ fastest.location.getD "this region" ++ " for best performance.",
      "Minimize latency for your users"⟩]
  | none => []

/-- The six optional inputs of `RecommendationEngine.analyze`; `none`
models an absent or falsy argument (the Python truthiness checks on
lines 44-60). -/
structure AnalyzeInput where
  network_data : Option NetworkData
  dns_data : Option DNSData
  cdn_data : Option CDNData
  protocol_data : Option ProtocolData
  port_data : Option PortData
  ping_data : Option PingData

/-- Apply a domain analyzer to an optional report (an absent report
contributes no recommendations). -/
def optRecs {α : Type} (f : α → List Recommendation) : Option α → List Recommendation
  | some d => f d
  | none => []

/-- The flat recommendation list accumulated by
`RecommendationEngine.analyze` (lines 42-60), in domain order. -/
def generate (inp : AnalyzeInput) : List Recommendation :=
  optRecs analyze_network inp.network_data ++
  optRecs analyze_dns inp.dns_data ++
  optRecs analyze_cdn inp.cdn_data ++
  optRecs analyze_protocol inp.protocol_data ++
  optRecs analyze_ports inp.port_data ++
  optRecs analyze_ping inp.ping_data

/-- Embeds `RecommendationEngine._generate_summary` (lines 246-256). -/
def generate_summary (recs : List Recommendation) : String :=
  let total := recs.length
  let high := (recs.filter fun r => r.priority == "high").length
  if 0 < high then
    "Found " ++ toString total ++ " recommendations with " ++ toString high ++
      " high-priority items requiring attention."
  else if 0 < total then
    "Found " ++ toString total ++
      " recommendations. Your network is performing well with room for optimization."
  else
    "No recommendations at this time. Consider running more tests."

/-- The result dict of `RecommendationEngine.analyze` (lines 66-77). -/
structure AnalyzeOutput where
  total_recommendations : ℕ
  high_priority : ℕ
  medium_priority : ℕ
  low_priority : ℕ
  high : List Recommendation
  medium : List Recommendation
  low : List Recommendation
  summary : String
deriving DecidableEq

/-- Embeds `RecommendationEngine.analyze` (lines 32-77): generate the flat list,
then partition it into the three priority buckets by filtering. -/
def analyze (inp : AnalyzeInput) : AnalyzeOutput :=
  let recs := generate inp
  let hi := recs.filter fun r => r.priority == "high"
  let med := recs.filter fun r => r.priority == "medium"
  let lo := recs.filter fun r => r.priority == "low"
  { total_recommendations := recs.length
    high_priority := hi.length
    medium_priority := med.length
    low_priority := lo.length
    high := hi
    medium := med
    low := lo
    summary := generate_summary recs }

end RecommendationEngine

namespace ServiceArchitect

/-- What `ServiceArchitect.design` reads from `dns_data["best_server"]`
(lines 38-47). -/
structure BestServerD where
  name : Option String
  ip : Option String
  features : List String
deriving DecidableEq

/-- The dns_data argument of `design`: `best_server = none` models an
absent `best_server` key (a present `None` value makes the Python crash
on `.get` and is outside the model). -/
structure DNSDesignData where
  best_server : Option BestServerD
deriving DecidableEq

/-- What `design` reads from `ping_data["fastest_region"]`
(lines 50-60). -/
structure FastestRegionD where
  name : Option String
  provider : Option String
  location : Option String
  avg_latency_ms : Option ℚ
deriving DecidableEq

/-- The ping_data argument of `design`: `fastest_region = none` models an
absent `fastest_region` key. -/
structure PingDesignData where
  fastest_region : Option FastestRegionD
deriving DecidableEq

/-- The network_data argument of `design`: only
`network_data.get("mtu", 1500)` is read (line 68). -/
structure NetworkDesignData where
  mtu : ℤ
deriving DecidableEq

/-- The `config` payload of a component (lines 43-46, 55-59, 67-71).  The
network config additionally carries the fixed strings
`latency_target = "< 50ms"` and `protocol = "TCP/UDP optimized"`. -/
inductive ComponentConfig where
  | dns (primary : Option String) (features : List String)
  | region (provider : Option String) (location : Option String) (latency_ms : Option ℚ)
  | network (mtu : ℤ)
deriving DecidableEq

/-- One component dict; the Python key `type` is rendered `ctype`. -/
structure Component where
  ctype : String
  name : String
  config : ComponentConfig
deriving DecidableEq

/-- One connection dict of `_design_connections`; the Python keys `from`
and `to` are reserved words in Lean and are rendered `src` and `dst`. -/
structure Connection where
  src : String
  dst : String
  protocol : String
  purpose : String
deriving DecidableEq

/-- Embeds `ServiceArchitect._design_connections`
(`src/modules/service_architect.py` lines 87-108): exactly the two fixed
client connections, and only when both a dns and a region component
exist. -/
def design_connections (components : List Component) : List Connection :=
  match components.find? (fun c => c.ctype == "dns"),
      components.find? (fun c => c.ctype == "region") with
  | some d, some r =>
    [⟨"client", d.name, "DNS over HTTPS", "Secure name resolution"⟩,
     ⟨"client", r.name, "HTTPS/TLS 1.3", "Primary application traffic"⟩]
  | _, _ => []

/-- The component list built by `ServiceArchitect.design` (lines 37-72),
in order: dns, region, network. -/
def design_components (network_data : Option NetworkDesignData)
    (dns_data : Option DNSDesignData) (ping_data : Option PingDesignData) :
    List Component :=
  (match dns_data with
   | some dd =>
     match dd.best_server with
     | some best => [⟨"dns", best.name.getD "Recommended DNS", .dns best.ip best.features⟩]
     | none => []
   | none => []) ++
  (match ping_data with
   | some pd =>
     match pd.fastest_region with
     | some best =>
       [⟨"region", best.name.getD "Optimal Region",
         .region best.provider best.location best.avg_latency_ms⟩]
     | none => []
   | none => []) ++
  (match network_data with
   | some nd => [⟨"network", "Network Configuration", .network nd.mtu⟩]
   | none => [])

/-- The architecture dict of `ServiceArchitect.design`, restricted to the
fields the verified claims concern (`config_templates` and
`recommendations` are further pure data not consumed by
`_design_connections`). -/
structure Architecture where
  name : String
  components : List Component
  connections : List Connection
deriving DecidableEq

/-- Embeds `ServiceArchitect.design` (`src/modules/service_architect.py` lines
29-85): build the component list, then derive the connections from it. -/
def design (network_data : Option NetworkDesignData)
    (dns_data : Option DNSDesignData) (ping_data : Option PingDesignData) :
    Architecture :=
  let components := design_components network_data dns_data ping_data
  { name := "Optimized Network Architecture"
    components := components
    connections := design_connections components }

end ServiceArchitect

namespace DNSAnalyzer

/-- The first position `p ≥ pos` holding byte 0, the
`while response[pos] != 0: pos += 1` loops of `_parse_dns_response`;
`none` models the `IndexError` Python raises when the walk runs past the
end of the response.  `fuel` only bounds the recursion: the position
grows by 1 each step and the walk stops at the list's end, so
`resp.length + 1` fuel is never exhausted from any start position. -/
def skipToZero (resp : List ℕ) : ℕ → ℕ → Option ℕ
  | 0, _ => none
  | fuel + 1, pos =>
    match resp[pos]? with
    | none => none
    | some b => if b = 0 then some pos else skipToZero resp fuel (pos + 1)

/-- Embeds `struct.unpack(">H", response[pos:pos+2])`; `none` models the
`struct.error` Python raises when the slice is shorter than 2 bytes. -/
def unpack16 (resp : List ℕ) (pos : ℕ) : Option ℕ :=
  match resp[pos]?, resp[pos + 1]? with
  | some hi, some lo => some (hi * 256 + lo)
  | _, _ => none

/-- Embeds `".".join(str(b) for b in bytes)`: a truncated 4-byte slice joins
fewer octets without failing. -/
def joinBytes (l : List ℕ) : String :=
  String.intercalate "." (l.map toString)

/-- The answer-walking loop of `DNSAnalyzer._parse_dns_response`
(`src/modules/dns_analyzer.py` lines 100-117).  A name starting with a
byte ≥ 192 is skipped as a 2-byte compression pointer, otherwise the name
is walked to its zero byte; then the record type is read, 8 bytes are
skipped to the data length, and a type-1 record of length 4 yields the
dotted quad.  Each iteration advances `pos` by at least 11 and the loop
runs only while `pos < len(response)`, so `resp.length + 1` fuel is never
exhausted. -/
def parseAnswers (resp : List ℕ) : ℕ → ℕ → Option String
  | 0, _ => none
  | fuel + 1, pos =>
    if pos < resp.length then
      match (if 192 ≤ resp.getD pos 0 then some (pos + 2)
             else (skipToZero resp (resp.length + 1) pos).map (· + 1)) with
      | none => none
      | some pos1 =>
        match unpack16 resp pos1, unpack16 resp (pos1 + 8) with
        | some rtype, some rdlength =>
          if rtype = 1 ∧ rdlength = 4 then
            some (joinBytes ((resp.drop (pos1 + 10)).take 4))
          else
            parseAnswers resp fuel (pos1 + 10 + rdlength)
        | _, _ => none
    else
      some ""

/-- Embeds `DNSAnalyzer._parse_dns_response` (`src/modules/dns_analyzer.py`
lines 94-117): skip the question name from offset 12, skip the zero byte
and the 4 QTYPE/QCLASS bytes, then walk the answer records.  `none`
models an exception escaping the parser. -/
def parse_dns_response (resp : List ℕ) : Option String :=
  match skipToZero resp (resp.length + 1) 12 with
  | none => none
  | some z => parseAnswers resp (resp.length + 1) (z + 5)

/-- The outcome of `DNSAnalyzer._resolve_dns` (lines 67-92) once a
response has been received within the timeout. -/
structure ResolveOutcome where
  success : Bool
  ip : String
deriving DecidableEq

/-- The tail of `DNSAnalyzer._resolve_dns` on a received response: a
completed parse reports success with the parsed value, while an
exception inside the parser is caught by the enclosing `except` and
reported as failure (the `ip` key is then absent; `test_dns_server`
reads it back with `result.get("ip", "")`). -/
def resolve_dns_response (resp : List ℕ) : ResolveOutcome :=
  match parse_dns_response resp with
  | some ip => ⟨true, ip⟩
  | none => ⟨false, ""⟩

end DNSAnalyzer

lemma round2_zero : round2 (0 : ℚ) = 0 := by
  have := round2_intCast 0
  simpa using this

/-- C8 counterexample: the claim says the CDN runner reports
`jitter = max − min`, but the per-provider dict built by
`CDNTester.benchmark` carries no jitter key at all. -/
theorem claim_c8_counterexample :
    "jitter" ∉ CDNTester.resultKeys ∧ "jitter_ms" ∉ CDNTester.resultKeys := by
  constructor <;> decide

/-- C8 (amended): jitter has two distinct per-domain definitions — the
region-ping runner reports `round(max − min, 2)` over the successful
samples, while the network scanner reports the mean of absolute
differences between temporally adjacent successful samples (order
sensitive; 0 when fewer than two successful samples exist) — and the CDN
runner reports no jitter at all.  On the samples 10, 20, 30 the two
definitions give 20 and 10; reordering the scanner's samples to
10, 30, 20 changes its jitter to 15. -/
theorem claim_c8_amended :
    (∀ (samples : List GlobalPingTester.Probe) (iters : ℕ),
      (GlobalPingTester.test_region_stats samples iters).jitter_ms =
        round2 ((GlobalPingTester.test_region_stats samples iters).max_latency_ms -
          (GlobalPingTester.test_region_stats samples iters).min_latency_ms)) ∧
    (GlobalPingTester.test_region_stats [⟨true, 10⟩, ⟨true, 20⟩, ⟨true, 30⟩] 3).jitter_ms
      = 20 ∧
    (NetworkScanner.measure_latency [.ok 10, .ok 20, .ok 30] 3).jitter = 10 ∧
    (NetworkScanner.measure_latency [.ok 10, .ok 30, .ok 20] 3).jitter = 15 ∧
    (NetworkScanner.measure_latency [.ok 10, .timedOut] 2).jitter = 0 ∧
    "jitter" ∉ CDNTester.resultKeys := by
  have e10 : round2 (10 : ℚ) = 10 := by
    have := round2_eval_lo (10 : ℚ) 1000 (by norm_num) (by norm_num)
    rw [this]; norm_num
  have e15 : round2 (15 : ℚ) = 15 := by
    have := round2_eval_lo (15 : ℚ) 1500 (by norm_num) (by norm_num)
    rw [this]; norm_num
  have e20 : round2 (20 : ℚ) = 20 := by
    have := round2_eval_lo (20 : ℚ) 2000 (by norm_num) (by norm_num)
    rw [this]; norm_num
  have e30 : round2 (30 : ℚ) = 30 := by
    have := round2_eval_lo (30 : ℚ) 3000 (by norm_num) (by norm_num)
    rw [this]; norm_num
  refine ⟨?_, ?_, ?_, ?_, ?_, by decide⟩
  · intro samples iters
    unfold GlobalPingTester.test_region_stats
    by_cases hemp : ((samples.filter (·.success)).map (·.latency_ms)) = []
    · simp [hemp, round2_zero]
    · simp [hemp]
  · simp [GlobalPingTester.test_region_stats, List.filter]
    norm_num [listMin, listMax, min_def, max_def, e10, e30, e20]
  · simp [NetworkScanner.measure_latency, NetworkScanner.adjacentDiffs]
    norm_num [e10]
  · simp [NetworkScanner.measure_latency, NetworkScanner.adjacentDiffs]
    norm_num [e15]
  · simp [NetworkScanner.measure_latency, NetworkScanner.adjacentDiffs, round2_zero]

/-- C10: in the CDN benchmark an iteration counts toward success_rate and
enters the latency aggregates exactly when the request completed with a
status code strictly below 400; a completed request with status ≥ 400 is
a failed sample even though its probe-level result has success = true. -/
theorem claim_c10_cdn_status_filter :
    (∀ (samples : List CDNTester.Probe) (m : ℕ),
      (CDNTester.benchmarkStats samples m).success_rate =
        round2 (((samples.countP fun r => r.success && decide (r.status_code < 400)) : ℚ)
          / (m : ℚ) * 100)) ∧
    (CDNTester.Probe.mk true 404 50).success = true ∧
    CDNTester.benchmarkStats [⟨true, 404, 50⟩] 1 = ⟨0, 0, 0, 0, 0⟩ ∧
    CDNTester.benchmarkStats [⟨true, 200, 50⟩, ⟨true, 404, 70⟩] 2 =
      ⟨50, 50, 50, 50, 70⟩ := by
  have e50 : round2 (50 : ℚ) = 50 := by
    have := round2_eval_lo (50 : ℚ) 5000 (by norm_num) (by norm_num)
    rw [this]; norm_num
  have escore : CDNTester.calculate_score 50 50 = 70 := by
    unfold CDNTester.calculate_score CDNTester.time_score
    rw [if_neg (by norm_num), if_pos (by norm_num)]
    exact pyInt_eval _ 70 (by norm_num) (by norm_num) (by norm_num)
  refine ⟨?_, rfl, ?_, ?_⟩
  · intro samples m
    unfold CDNTester.benchmarkStats
    rw [List.countP_eq_length_filter]
  · simp [CDNTester.benchmarkStats, List.filter, CDNTester.Stats.mk.injEq]
    norm_num [CDNTester.calculate_score, round2_zero]
  · simp [CDNTester.benchmarkStats, List.filter, CDNTester.Stats.mk.injEq]
    norm_num [listMin, listMax0, min_def, max_def, e50, escore]

/-- C9: for every combination of inputs to the architecture
synthesizer's design operation, the connections list is non-empty iff
both a DNS component and a region component are present in the component
list (equivalently: iff a best DNS server and a fastest region were
supplied), and in that case it is exactly the two fixed connections
client→DNS (encrypted name resolution) and client→region (encrypted
application transport). -/
theorem claim_c9_connections (nd : Option ServiceArchitect.NetworkDesignData)
    (dd : Option ServiceArchitect.DNSDesignData)
    (pd : Option ServiceArchitect.PingDesignData) :
    ((ServiceArchitect.design nd dd pd).connections ≠ [] ↔
      (∃ c ∈ (ServiceArchitect.design nd dd pd).components, c.ctype = "dns") ∧
      (∃ c ∈ (ServiceArchitect.design nd dd pd).components, c.ctype = "region")) ∧
    ((ServiceArchitect.design nd dd pd).connections ≠ [] ↔
      (dd.bind (·.best_server)).isSome ∧ (pd.bind (·.fastest_region)).isSome) ∧
    (∀ b r, dd.bind (·.best_server) = some b →
      pd.bind (·.fastest_region) = some r →
      (ServiceArchitect.design nd dd pd).connections =
        [⟨"client", b.name.getD "Recommended DNS", "DNS over HTTPS",
          "Secure name resolution"⟩,
         ⟨"client", r.name.getD "Optimal Region", "HTTPS/TLS 1.3",
          "Primary application traffic"⟩]) := by
  rcases dd with _ | ⟨_ | b⟩ <;> rcases pd with _ | ⟨_ | r⟩ <;> rcases nd with _ | n <;>
    simp [ServiceArchitect.design, ServiceArchitect.design_components,
      ServiceArchitect.design_connections]

/-- Witness for C9 with a concrete best DNS server and fastest region. -/
theorem claim_c9_connections_witness :
    (ServiceArchitect.design none
        (some ⟨some ⟨some "Cloudflare", some "1.1.1.1", []⟩⟩)
        (some ⟨some ⟨some "US East", some "AWS", some "Virginia", some 12⟩⟩)).connections =
      [⟨"client", "Cloudflare", "DNS over HTTPS", "Secure name resolution"⟩,
       ⟨"client", "US East", "HTTPS/TLS 1.3", "Primary application traffic"⟩] := by
  have h := (claim_c9_connections none
      (some ⟨some ⟨some "Cloudflare", some "1.1.1.1", []⟩⟩)
      (some ⟨some ⟨some "US East", some "AWS", some "Virginia", some 12⟩⟩)).2.2
      ⟨some "Cloudflare", some "1.1.1.1", []⟩
      ⟨some "US East", some "AWS", some "Virginia", some 12⟩ rfl rfl
  simpa using h

/-- The C5 scenario scan: ports 21, 80, 443 where the connection to 21
is established, 80 is refused and 443 times out. -/
def c5Scan : PortScanner.ScanResults :=
  PortScanner.scan_ports "example.com"
    [(21, .established), (80, .refused), (443, .timedOut)]

/-- The C5 engine input: only the ports report, carrying the scan's open
ports. -/
def c5Analysis : RecommendationEngine.AnalyzeOutput :=
  RecommendationEngine.analyze
    ⟨none, none, none, none, some ⟨c5Scan.open_ports⟩, none⟩

/-- C5: in the scenario scan, the per-port statuses are
open/closed/filtered, open_ports holds exactly the port-21 entry,
closed_ports the port-80 entry, filtered_ports the port-443 entry, the
summary's open_percentage is round(1/3·100, 2) = 33.33, and the
recommendation engine fires the high-priority risky-port security
recommendation because 21 is in the risky set {21, 23, 3389}. -/
theorem claim_c5_port_scan_scenario :
    c5Scan.results.map (fun r => (r.port, r.status)) =
      [(21, "open"), (80, "closed"), (443, "filtered")] ∧
    c5Scan.open_ports.map (·.port) = [21] ∧
    c5Scan.closed_ports.map (·.port) = [80] ∧
    c5Scan.filtered_ports.map (·.port) = [443] ∧
    c5Scan.summary = ⟨3, 1, 1, 1, 3333/100⟩ ∧
    c5Analysis.high.map (fun r => (r.category, r.priority, r.title)) =
      [("security", "high", "Potentially Risky Ports Open")] ∧
    c5Analysis.high_priority = 1 ∧
    c5Analysis.total_recommendations = 1 := by
  have e3333 : round2 ((3 : ℚ)⁻¹ * 100) = 3333 / 100 := by
    have := round2_eval_lo ((3 : ℚ)⁻¹ * 100) 3333 (by norm_num) (by norm_num)
    rw [this]
    norm_num
  refine ⟨?_, ?_, ?_, ?_, ?_, ?_, ?_, ?_⟩ <;>
    simp [c5Scan, c5Analysis, PortScanner.scan_ports, PortScanner.scan_port,
      PortScanner.all_ports_get, PortScanner.VPN_PORTS, PortScanner.COMMON_PORTS,
      PortScanner.ScanSummary.mk.injEq, RecommendationEngine.analyze,
      RecommendationEngine.generate, RecommendationEngine.optRecs,
      RecommendationEngine.analyze_ports, RecommendationEngine.generate_summary,
      e3333]

/-- A recommendation's priority is one of the three bucket labels. -/
def RecommendationEngine.validPriority (r : RecommendationEngine.Recommendation) : Prop :=
  r.priority = "high" ∨ r.priority = "medium" ∨ r.priority = "low"

lemma analyze_network_valid (d : RecommendationEngine.NetworkData) :
    ∀ r ∈ RecommendationEngine.analyze_network d, RecommendationEngine.validPriority r := by
  intro r hr
  unfold RecommendationEngine.analyze_network at hr
  rcases List.mem_append.mp hr with h | h <;> split_ifs at h <;>
    simp_all [RecommendationEngine.validPriority]

lemma analyze_dns_valid (d : RecommendationEngine.DNSData) :
    ∀ r ∈ RecommendationEngine.analyze_dns d, RecommendationEngine.validPriority r := by
  intro r hr
  unfold RecommendationEngine.analyze_dns at hr
  rcases List.mem_append.mp hr with h | h
  · rcases hb : d.best_server with _ | best <;> simp only [hb] at h
    · simp at h
    · split_ifs at h <;> simp_all [RecommendationEngine.validPriority]
  · rcases hf : d.servers.find? (fun s => s.privacy == some "high") with _ | sv <;>
      simp only [hf] at h
    · simp at h
    · simp_all [RecommendationEngine.validPriority]

lemma analyze_cdn_valid (d : RecommendationEngine.CDNData) :
    ∀ r ∈ RecommendationEngine.analyze_cdn d, RecommendationEngine.validPriority r := by
  intro r hr
  unfold RecommendationEngine.analyze_cdn at hr
  rcases hb : d.best_cdn with _ | best <;> simp only [hb] at hr
  · simp at hr
  · split_ifs at hr <;> simp_all [RecommendationEngine.validPriority]

lemma analyze_protocol_valid (d : RecommendationEngine.ProtocolData) :
    ∀ r ∈ RecommendationEngine.analyze_protocol d, RecommendationEngine.validPriority r := by
  intro r hr
  unfold RecommendationEngine.analyze_protocol at hr
  rcases List.mem_append.mp hr with h | h <;> split_ifs at h <;>
    simp_all [RecommendationEngine.validPriority]

lemma analyze_ports_valid (d : RecommendationEngine.PortData) :
    ∀ r ∈ RecommendationEngine.analyze_ports d, RecommendationEngine.validPriority r := by
  intro r hr
  unfold RecommendationEngine.analyze_ports at hr
  rcases List.mem_append.mp hr with h | h <;> split_ifs at h <;>
    simp_all [RecommendationEngine.validPriority]

lemma analyze_ping_valid (d : RecommendationEngine.PingData) :
    ∀ r ∈ RecommendationEngine.analyze_ping d, RecommendationEngine.validPriority r := by
  intro r hr
  unfold RecommendationEngine.analyze_ping at hr
  rcases hb : d.fastest_region with _ | fr <;> simp only [hb] at hr
  · simp at hr
  · simp_all [RecommendationEngine.validPriority]

lemma optRecs_valid {α : Type} (f : α → List RecommendationEngine.Recommendation)
    (hf : ∀ d, ∀ r ∈ f d, RecommendationEngine.validPriority r) (o : Option α) :
    ∀ r ∈ RecommendationEngine.optRecs f o, RecommendationEngine.validPriority r := by
  intro r hr
  cases o with
  | none => simp [RecommendationEngine.optRecs] at hr
  | some d => exact hf d r hr

lemma generate_valid (inp : RecommendationEngine.AnalyzeInput) :
    ∀ r ∈ RecommendationEngine.generate inp, RecommendationEngine.validPriority r := by
  intro r hr
  unfold RecommendationEngine.generate at hr
  simp only [List.mem_append] at hr
  rcases hr with ((((h | h) | h) | h) | h) | h
  · exact optRecs_valid _ analyze_network_valid _ r h
  · exact optRecs_valid _ analyze_dns_valid _ r h
  · exact optRecs_valid _ analyze_cdn_valid _ r h
  · exact optRecs_valid _ analyze_protocol_valid _ r h
  · exact optRecs_valid _ analyze_ports_valid _ r h
  · exact optRecs_valid _ analyze_ping_valid _ r h

lemma filter_priority_length (l : List RecommendationEngine.Recommendation)
    (h : ∀ r ∈ l, RecommendationEngine.validPriority r) :
    (l.filter fun r => r.priority == "high").length +
      (l.filter fun r => r.priority == "medium").length +
      (l.filter fun r => r.priority == "low").length = l.length := by
  induction l with
  | nil => simp
  | cons a t ih =>
    have ha := h a (List.mem_cons_self a t)
    have ht := ih fun r hr => h r (List.mem_cons_of_mem a hr)
    rcases ha with ha | ha | ha <;>
      simp [List.filter_cons, ha] <;> omega

/-- C7: for every combination of input reports, the three priority
buckets of the engine's output partition the generated recommendations:
the bucket lengths sum to total_recommendations, each generated
recommendation lies in a bucket iff its priority field matches that
bucket, and each bucket is a sublist of the generation-ordered flat
list (so relative order is preserved). -/
theorem claim_c7_partition (inp : RecommendationEngine.AnalyzeInput) :
    (RecommendationEngine.analyze inp).high.length +
      (RecommendationEngine.analyze inp).medium.length +
      (RecommendationEngine.analyze inp).low.length =
      (RecommendationEngine.analyze inp).total_recommendations ∧
    (RecommendationEngine.analyze inp).total_recommendations =
      (RecommendationEngine.generate inp).length ∧
    (∀ r ∈ RecommendationEngine.generate inp,
      (r ∈ (RecommendationEngine.analyze inp).high ↔ r.priority = "high") ∧
      (r ∈ (RecommendationEngine.analyze inp).medium ↔ r.priority = "medium") ∧
      (r ∈ (RecommendationEngine.analyze inp).low ↔ r.priority = "low")) ∧
    (RecommendationEngine.analyze inp).high.Sublist (RecommendationEngine.generate inp) ∧
    (RecommendationEngine.analyze inp).medium.Sublist (RecommendationEngine.generate inp) ∧
    (RecommendationEngine.analyze inp).low.Sublist (RecommendationEngine.generate inp) := by
  refine ⟨?_, rfl, ?_, ?_, ?_, ?_⟩
  · exact filter_priority_length _ (generate_valid inp)
  · intro r hr
    refine ⟨?_, ?_, ?_⟩ <;>
      simp [RecommendationEngine.analyze, List.mem_filter, hr]
  · exact List.filter_sublist _
  · exact List.filter_sublist _
  · exact List.filter_sublist _

/-- Witness for C7 on an input with only a protocol report whose TLS 1.3
success rate is 0: the single generated recommendation sits in the high
bucket. -/
theorem claim_c7_partition_witness :
    ((RecommendationEngine.analyze ⟨none, none, none, some ⟨0, 0⟩, none, none⟩).high.length +
      (RecommendationEngine.analyze ⟨none, none, none, some ⟨0, 0⟩, none, none⟩).medium.length +
      (RecommendationEngine.analyze ⟨none, none, none, some ⟨0, 0⟩, none, none⟩).low.length =
      (RecommendationEngine.analyze ⟨none, none, none, some ⟨0, 0⟩, none, none⟩).total_recommendations) ∧
    (RecommendationEngine.Recommendation.mk "security" "high" "TLS 1.3 Not Available"
        "TLS 1.3 is not consistently available on tested endpoints."
        "Ensure your servers support TLS 1.3 for better security and performance."
        "Improve security and reduce handshake latency" ∈
      (RecommendationEngine.analyze ⟨none, none, none, some ⟨0, 0⟩, none, none⟩).high ↔
      ("high" : String) = "high") := by
  have h := claim_c7_partition ⟨none, none, none, some ⟨0, 0⟩, none, none⟩
  refine ⟨h.1, ?_⟩
  have hm := h.2.2.1
    (RecommendationEngine.Recommendation.mk "security" "high" "TLS 1.3 Not Available"
      "TLS 1.3 is not consistently available on tested endpoints."
      "Ensure your servers support TLS 1.3 for better security and performance."
      "Improve security and reduce handshake latency")
    (by norm_num [RecommendationEngine.generate, RecommendationEngine.optRecs,
      RecommendationEngine.analyze_protocol])
  exact hm.1

/-- C6 counterexample: the empty response — received within the timeout
as a zero-length datagram — makes the parser's first name walk read past
the end (`response[12]` raises `IndexError`), so `_resolve_dns` reports
success = False: malformedness of the response bytes can turn the result
into a failure, contradicting the claim that it never does. -/
theorem claim_c6_counterexample :
    DNSAnalyzer.resolve_dns_response [] = ⟨false, ""⟩ := by
  rfl

/-- C6 (amended): for a response received within the timeout the probe
reports success = true exactly when the parser completes without reading
out of bounds; it then returns the dotted quad of the first A record, or
an empty resolved value when no A record is present — but a response
whose malformation makes the parser read out of bounds (e.g. a truncated
one) is reported as a failure. -/
theorem claim_c6_amended :
    (∀ (resp : List ℕ) (ip : String), DNSAnalyzer.parse_dns_response resp = some ip →
      DNSAnalyzer.resolve_dns_response resp = ⟨true, ip⟩) ∧
    (∀ resp : List ℕ, DNSAnalyzer.parse_dns_response resp = none →
      DNSAnalyzer.resolve_dns_response resp = ⟨false, ""⟩) ∧
    DNSAnalyzer.resolve_dns_response
      ([0, 0, 0, 0, 0, 0, 0, 0, 0, 0, 0, 0] ++ [1, 97, 0] ++ [0, 1, 0, 1] ++
        [192, 12, 0, 1, 0, 1, 0, 0, 0, 60, 0, 4, 1, 2, 3, 4]) = ⟨true, "1.2.3.4"⟩ ∧
    DNSAnalyzer.resolve_dns_response
      ([0, 0, 0, 0, 0, 0, 0, 0, 0, 0, 0, 0] ++ [0] ++ [0, 1, 0, 1]) = ⟨true, ""⟩ ∧
    DNSAnalyzer.resolve_dns_response [0, 0, 0, 0, 0, 0, 0, 0, 0, 0, 0, 0] =
      ⟨false, ""⟩ := by
  refine ⟨?_, ?_, ?_, ?_, ?_⟩
  · intro resp ip h
    unfold DNSAnalyzer.resolve_dns_response
    rw [h]
  · intro resp h
    unfold DNSAnalyzer.resolve_dns_response
    rw [h]
  · rfl
  · rfl
  · rfl

/-- Witness for C6 (amended): the success branch applied to the concrete
well-formed response carrying the A record 1.2.3.4. -/
theorem claim_c6_amended_witness :
    DNSAnalyzer.resolve_dns_response
      ([0, 0, 0, 0, 0, 0, 0, 0, 0, 0, 0, 0] ++ [1, 97, 0] ++ [0, 1, 0, 1] ++
        [192, 12, 0, 1, 0, 1, 0, 0, 0, 60, 0, 4, 1, 2, 3, 4]) = ⟨true, "1.2.3.4"⟩ :=
  claim_c6_amended.1
    ([0, 0, 0, 0, 0, 0, 0, 0, 0, 0, 0, 0] ++ [1, 97, 0] ++ [0, 1, 0, 1] ++
      [192, 12, 0, 1, 0, 1, 0, 0, 0, 60, 0, 4, 1, 2, 3, 4]) "1.2.3.4" (by rfl)

end NetOptimizer
